import Mathlib

/-!
# Verification of the mesh-node site-map KML generator

Shallow embedding of `generate_kml.py`: the script reads two CSV sheets
(prospective and installed nodes), validates headers and rows, groups valid
rows into folders, renders styled KML placemarks, and serializes two XML
documents (`sites.kml` and `networklink.kml`).

Modelling conventions:
* a CSV row (`csv.DictReader` output) is an association list from column name
  to cell string; a missing column behaves like Python's `row.get` → `None`;
* Python `dict` (insertion ordered) is an association list with unique keys;
* Python `float` values are embedded as `Rat`; `parseFloat` models the
  decimal and scientific forms accepted by Python's `float()` constructor
  (`inf`/`nan`/underscore forms are not modelled: they can never produce an
  in-range coordinate, so a row carrying them is skipped either way);
* `str(float)` rendering inside coordinates is abstracted by `pyFloatRepr`;
  no claim depends on the exact digit rendering;
* `die()` (print to stderr + exit 1) is modelled as `Except.error`; the
  script writes both output files only after all processing succeeds, so an
  error produces no output document;
* the HTTP fetch and the CSV tokenizer are external collaborators: the
  pipeline takes the header (field-name list) and the parsed rows directly.
-/

namespace GenerateKml

/-- A CSV row: association list from column name to cell value. -/
abbrev Row : Type := List (String × String)

/-- Python `str.strip()` (structural recursion over the character list;
same whitespace set as Lean's `Char.isWhitespace`). -/
def pyStrip (s : String) : String :=
  ⟨((s.data.dropWhile Char.isWhitespace).reverse.dropWhile Char.isWhitespace).reverse⟩

/-- Python `str.lower()`. -/
def pyLower (s : String) : String :=
  ⟨s.data.map Char.toLower⟩

/-- Python string `<=`: lexicographic comparison of code points. -/
def charListLe : List Char → List Char → Bool
  | [], _ => true
  | _ :: _, [] => false
  | a :: as, b :: bs =>
    if a.toNat < b.toNat then true
    else if b.toNat < a.toNat then false
    else charListLe as bs

/-- Python string `<=` on `String`. -/
def pyStrLe (a b : String) : Bool :=
  charListLe a.data b.data

/-- `row.get(col)`: first binding of the column, if any. -/
def rowGet (row : Row) (col : String) : Option String :=
  match row with
  | [] => none
  | (c, v) :: rest => if c = col then some v else rowGet rest col

/-- `(row.get(col) or "").strip()`. -/
def getStr (row : Row) (col : String) : String :=
  pyStrip ((rowGet row col).getD "")

/-- Python-dict lookup on an insertion-ordered association list. -/
def dictGet {α : Type} (d : List (String × α)) (k : String) : Option α :=
  match d with
  | [] => none
  | (k', v) :: rest => if k' = k then some v else dictGet rest k

/-- `dict.get(k, default)`. -/
def dictGetD {α : Type} (d : List (String × α)) (k : String) (dflt : α) : α :=
  (dictGet d k).getD dflt

/-- `k in dict`. -/
def dictContains {α : Type} (d : List (String × α)) (k : String) : Bool :=
  (dictGet d k).isSome

/-- The keys of a Python dict, in insertion order. -/
def dictKeys {α : Type} (d : List (String × α)) : List String :=
  d.map (fun p => p.1)

/-- `d.setdefault(k, []).append(v)`: extend the list bound to `k`,
inserting the key at the end when absent (Python dict insertion order). -/
def dictSetdefaultAppend {α : Type} (d : List (String × List α)) (k : String) (v : α) :
    List (String × List α) :=
  match d with
  | [] => [(k, [v])]
  | (k', vs) :: rest =>
    if k' = k then (k', vs ++ [v]) :: rest else (k', vs) :: dictSetdefaultAppend rest k v

/-- Value of a digit string (most significant first). -/
def digitsVal (ds : List Char) : Nat :=
  ds.foldl (fun acc d => acc * 10 + (d.toNat - 48)) 0

/-- A nonempty all-digit character list, as a number. -/
def parseDigits (ds : List Char) : Option Nat :=
  if ds ≠ [] ∧ ds.all Char.isDigit then some (digitsVal ds) else none

/-- Mantissa of a Python float literal: digits with at most one dot and at
least one digit overall. -/
def parseMantissa (cs : List Char) : Option Rat :=
  let ip := cs.takeWhile (fun c => c != '.')
  let rest := cs.dropWhile (fun c => c != '.')
  match rest with
  | [] => (parseDigits ip).map (fun n => (n : Rat))
  | _ :: fp =>
    if fp.contains '.' then none
    else if ip.all Char.isDigit ∧ fp.all Char.isDigit ∧ (ip ≠ [] ∨ fp ≠ []) then
      some ((digitsVal (ip ++ fp) : Rat) / ((10 : Rat) ^ fp.length))
    else none

/-- Exponent part of a Python float literal (after `e`/`E`). -/
def parseExponent (cs : List Char) : Option Int :=
  match cs with
  | [] => none
  | c :: rest =>
    if c = '+' then (parseDigits rest).map (fun n => (n : Int))
    else if c = '-' then (parseDigits rest).map (fun n => -(n : Int))
    else (parseDigits cs).map (fun n => (n : Int))

/-- Python's `float(string)` on its decimal/scientific forms: optional
surrounding whitespace, optional sign, mantissa, optional exponent. -/
def parseFloat (s : String) : Option Rat :=
  let t := (pyStrip s).data
  let sc : Bool × List Char :=
    match t with
    | [] => (false, [])
    | c :: rest => if c = '+' then (false, rest) else if c = '-' then (true, rest) else (false, t)
  let signed : Rat → Rat := fun m => if sc.1 then -m else m
  let mant := sc.2.takeWhile (fun c => c != 'e' && c != 'E')
  let rest := sc.2.dropWhile (fun c => c != 'e' && c != 'E')
  match rest with
  | [] => (parseMantissa mant).map signed
  | _ :: ecs =>
    match parseMantissa mant, parseExponent ecs with
    | some m, some e => some (signed (m * (10 : Rat) ^ e))
    | _, _ => none

/-- `safe_float`: `float(v)` returning `None` on `TypeError`/`ValueError`
(`v` itself may be `None` when the column is absent). -/
def safe_float (v : Option String) : Option Rat :=
  v.bind parseFloat

/-- `opt(row, cols, col)`: the stripped cell when the sheet has the column,
`""` otherwise. -/
def opt (row : Row) (cols : List String) (col : String) : String :=
  if cols.contains col then getStr row col else ""

/-- One character of `html.escape` (with its default `quote=True`):
`&` (38), `<` (60), `>` (62), `"` (34) and the apostrophe (39) are replaced
by their entities. -/
def escapeChar (c : Char) : String :=
  if c.toNat = 38 then "&amp;"
  else if c.toNat = 60 then "&lt;"
  else if c.toNat = 62 then "&gt;"
  else if c.toNat = 34 then "&quot;"
  else if c.toNat = 39 then "&#x27;"
  else String.singleton c

/-- `html.escape(s)` (all call sites use the default `quote=True`). -/
def htmlEscape (s : String) : String :=
  String.join (s.data.map escapeChar)

/-- Stand-in for Python's `str(float)` used inside `<coordinates>`; the
claims under verification never inspect the digit rendering. -/
def pyFloatRepr (q : Rat) : String :=
  if q.den = 1 then toString q.num ++ ".0" else toString q

-- -----------------------
-- High-level configuration
-- -----------------------

def DATASET_NAME : String := "FLG/TwiceAsNice MeshCore Site Map"

def NETWORKLINK_NAME : String := DATASET_NAME ++ " (Live)"

def DEFAULT_DATASET_HREF : String := "https://txkbaldlaw.github.io/meshnodes-site-map/sites.kml"

-- -----------------------
-- Prospective node styling
-- -----------------------

def PROSPECTIVE_CATEGORY_ORDER : List String :=
  ["Suggested", "Group Approved", "Group Rejected", "Owner Requested",
   "Owner Approved", "Owner Rejected"]

def PROSPECTIVE_CATEGORY_COLORS : List (String × String) :=
  [("Owner Approved", "ff00ff00"),
   ("Group Approved", "fffeb900"),
   ("Node Installed", "ff00ff00"),
   ("Suggested", "ffeeff00"),
   ("Owner Requested", "ffda00ff"),
   ("Owner Rejected", "ff000000"),
   ("Group Rejected", "ff0000ff")]

def PROSPECTIVE_DEFAULT_ICON_URL : String :=
  "http://maps.google.com/mapfiles/kml/paddle/wht-blank.png"

def PROSPECTIVE_CATEGORY_ICONS : List (String × String) :=
  [("Node Installed", "http://maps.google.com/mapfiles/kml/paddle/grn-stars.png"),
   ("Owner Approved", "http://maps.google.com/mapfiles/kml/paddle/grn-blank.png"),
   ("Suggested", "http://maps.google.com/mapfiles/kml/paddle/wht-blank.png"),
   ("Owner Rejected", "http://maps.google.com/mapfiles/kml/paddle/X.png"),
   ("Group Rejected", "http://maps.google.com/mapfiles/kml/paddle/X.png")]

-- -----------------------
-- Installed node styling
-- -----------------------

def NODE_CLASS_ORDER : List String :=
  ["Backbone", "Branch", "Home/Office Repeater", "Room Server"]

def INSTALLED_STATUS_COLORS : List (String × String) :=
  [("In Service", "ff00ff00"),
   ("Pre-Install", "ffeeff00"),
   ("Needs Updates", "ff00ffff"),
   ("Offline for Repair", "ff00a5ff"),
   ("Needs Repair", "ff0000ff"),
   ("Decommissioned", "ff808080")]

def INSTALLED_DEFAULT_ICON_URL : String :=
  "http://maps.google.com/mapfiles/kml/paddle/wht-blank.png"

def INSTALLED_STATUS_ICONS : List (String × String) := []

-- -----------------------
-- Required columns
-- -----------------------

def PROSPECTIVE_REQUIRED_COLUMNS : List String :=
  ["Name", "Latitude", "Longitude", "Category"]

def INSTALLED_REQUIRED_COLUMNS : List String :=
  ["Node ID", "Node Name", "Latitude", "Longitude", "Node Class", "Node Status"]

/-- `[c for c in required if c not in cols]`. -/
def missingColumns (required cols : List String) : List String :=
  required.filter (fun c => !(cols.contains c))

/-- `sort_key_with_preferred_order`: Python returns `(0, preferred.index(v))`
for listed values and `(1, v.lower())` otherwise; the two tuple shapes are
embedded into one triple compared lexicographically by `keyLe`. -/
def sort_key_with_preferred_order (value : String) (preferred : List String) :
    Nat × Nat × String :=
  if preferred.contains value then (0, List.indexOf value preferred, "")
  else (1, 0, pyLower value)

/-- Python tuple comparison of the embedded sort keys. -/
def keyLe (x y : Nat × Nat × String) : Bool :=
  if x.1 < y.1 then true
  else if y.1 < x.1 then false
  else if x.2.1 < y.2.1 then true
  else if y.2.1 < x.2.1 then false
  else pyStrLe x.2.2 y.2.2

/-- `style_id(prefix, name)`. -/
def style_id (pre name : String) : String :=
  pre ++ name

/-- `build_style_block(style_id_str, color, icon_url)`. -/
def build_style_block (style_id_str color icon_url : String) : String :=
  "\n    <Style id=\"" ++ htmlEscape style_id_str ++ "\">\n      <IconStyle>\n        <color>"
    ++ color
    ++ "</color>\n        <scale>1.1</scale>\n        <Icon><href>"
    ++ htmlEscape icon_url
    ++ "</href></Icon>\n      </IconStyle>\n      <LabelStyle><scale>0.9</scale></LabelStyle>\n    </Style>"

-- -----------------------
-- Row validation (the loop guards of `main`)
-- -----------------------

/-- The data extracted from a prospective row that passes both guards. -/
structure PChecked where
  name : String
  category : String
  lat : Rat
  lon : Rat
  deriving DecidableEq

/-- The data extracted from an installed row that passes both guards. -/
structure IChecked where
  nodeId : String
  nodeName : String
  nodeClass : String
  nodeStatus : String
  lat : Rat
  lon : Rat
  deriving DecidableEq

/-- Guards of the prospective loop: skip when a required field strips to
empty or a coordinate fails to parse, then skip when a coordinate is out of
range; otherwise keep the extracted values. -/
def prospectiveChecked (row : Row) : Option PChecked :=
  let name := getStr row "Name"
  let category := getStr row "Category"
  let latQ := safe_float (rowGet row "Latitude")
  let lonQ := safe_float (rowGet row "Longitude")
  if name = "" ∨ category = "" ∨ latQ = none ∨ lonQ = none then none
  else
    match latQ, lonQ with
    | some la, some lo =>
      if ¬(-90 ≤ la ∧ la ≤ 90 ∧ -180 ≤ lo ∧ lo ≤ 180) then none
      else some ⟨name, category, la, lo⟩
    | _, _ => none

/-- Guards of the installed loop. -/
def installedChecked (row : Row) : Option IChecked :=
  let node_id := getStr row "Node ID"
  let node_name := getStr row "Node Name"
  let node_class := getStr row "Node Class"
  let node_status := getStr row "Node Status"
  let latQ := safe_float (rowGet row "Latitude")
  let lonQ := safe_float (rowGet row "Longitude")
  if node_id = "" ∨ node_name = "" ∨ node_class = "" ∨ node_status = "" ∨
      latQ = none ∨ lonQ = none then none
  else
    match latQ, lonQ with
    | some la, some lo =>
      if ¬(-90 ≤ la ∧ la ≤ 90 ∧ -180 ≤ lo ∧ lo ≤ 180) then none
      else some ⟨node_id, node_name, node_class, node_status, la, lo⟩
    | _, _ => none

-- -----------------------
-- Placemark rendering
-- -----------------------

/-- `desc_parts.append(piece)` guarded by `if value:`. -/
def appendIf (parts : List String) (value piece : String) : List String :=
  if value = "" then parts else parts ++ [piece]

/-- The FCC-link description line (escaped with `quote=True`). -/
def fccLinkPart (fcc_link : String) : String :=
  let u := htmlEscape fcc_link
  "<b>FCC Link:</b> <a href=\"" ++ u ++ "\" target=\"_blank\">" ++ u ++ "</a>"

/-- Python `a or b` on strings (empty string is falsy). -/
def pyOr (a b : String) : String :=
  if a = "" then b else a

/-- Description panel of a prospective placemark. -/
def prospectiveDesc (nowStr : String) (refresh : Nat) (cols : List String) (row : Row)
    (name category : String) : String :=
  let address := opt row cols "Street Address"
  let notes := opt row cols "Notes"
  let proposed_by := opt row cols "Proposed By"
  let assigned_to := opt row cols "Assigned To"
  let node_owner := opt row cols "Node Owner"
  let installed_node_name := opt row cols "Installed Node Name"
  let fcc_id := opt row cols "FCC ID"
  let fcc_link := opt row cols "FCC Link"
  let parts := ["<b>Name:</b> " ++ htmlEscape name, "<b>Category:</b> " ++ htmlEscape category]
  let parts := appendIf parts address ("<b>Street Address:</b> " ++ htmlEscape address)
  let parts := appendIf parts proposed_by ("<b>Proposed By:</b> " ++ htmlEscape proposed_by)
  let parts := appendIf parts assigned_to ("<b>Assigned To:</b> " ++ htmlEscape assigned_to)
  let parts := appendIf parts node_owner ("<b>Node Owner:</b> " ++ htmlEscape node_owner)
  let parts := appendIf parts installed_node_name
    ("<b>Installed Node Name:</b> " ++ htmlEscape installed_node_name)
  let parts := appendIf parts fcc_id ("<b>FCC ID:</b> " ++ htmlEscape fcc_id)
  let parts := appendIf parts fcc_link (fccLinkPart fcc_link)
  let parts := appendIf parts notes ("<b>Notes:</b> " ++ htmlEscape notes)
  let parts := parts ++
    ["<i>Updated (UTC):</i> " ++ nowStr,
     "<i>Refresh:</i> every " ++ toString (refresh / 60) ++ " minutes"]
  String.intercalate "<br/>" parts

/-- Description panel of an installed placemark. -/
def installedDesc (nowStr : String) (refresh : Nat) (cols : List String) (row : Row)
    (node_id node_name node_class node_status : String) : String :=
  let node_owner := opt row cols "Node Owner"
  let site_owner := opt row cols "Site Owner"
  let site_contact_name := opt row cols "Site Contact Name"
  let site_contact_phone := opt row cols "Site Contact Phone"
  let site_contact_email := opt row cols "Site Contact Email"
  let baseboard := opt row cols "Node Baseboard"
  let antenna := opt row cols "Antenna"
  let antenna_gain := opt row cols "Antenna Gain"
  let battery_type := opt row cols "Battery Type"
  let battery_qty := opt row cols "Battery Quantity"
  let solar := opt row cols "Solar"
  let solar_wattage := opt row cols "Solar Panel Wattage"
  let install_type := opt row cols "Installation Type"
  let install_elev := opt row cols "Installed Elevation"
  let installed_date := opt row cols "Installed Date"
  let last_updated_date := pyOr (opt row cols "Last Updated Date") (opt row cols "Late Updated Date")
  let decommissioned_date := opt row cols "Decommissioned Date"
  let fcc_id := opt row cols "FCC ID"
  let fcc_link := opt row cols "FCC Link"
  let notes := opt row cols "Notes"
  let parts :=
    ["<b>Node Name:</b> " ++ htmlEscape node_name,
     "<b>Node ID:</b> " ++ htmlEscape node_id,
     "<b>Node Class:</b> " ++ htmlEscape node_class,
     "<b>Node Status:</b> " ++ htmlEscape node_status]
  let parts := appendIf parts node_owner ("<b>Node Owner:</b> " ++ htmlEscape node_owner)
  let parts := appendIf parts site_owner ("<b>Site Owner:</b> " ++ htmlEscape site_owner)
  let parts := appendIf parts site_contact_name
    ("<b>Site Contact Name:</b> " ++ htmlEscape site_contact_name)
  let parts := appendIf parts site_contact_phone
    ("<b>Site Contact Phone:</b> " ++ htmlEscape site_contact_phone)
  let parts := appendIf parts site_contact_email
    ("<b>Site Contact Email:</b> " ++ htmlEscape site_contact_email)
  let parts := appendIf parts baseboard ("<b>Node Baseboard:</b> " ++ htmlEscape baseboard)
  let parts := appendIf parts antenna ("<b>Antenna:</b> " ++ htmlEscape antenna)
  let parts := appendIf parts antenna_gain ("<b>Antenna Gain:</b> " ++ htmlEscape antenna_gain)
  let parts := appendIf parts battery_type ("<b>Battery Type:</b> " ++ htmlEscape battery_type)
  let parts := appendIf parts battery_qty
    ("<b>Battery Quantity:</b> " ++ htmlEscape battery_qty)
  let parts := appendIf parts solar ("<b>Solar:</b> " ++ htmlEscape solar)
  let parts := appendIf parts solar_wattage
    ("<b>Solar Panel Wattage:</b> " ++ htmlEscape solar_wattage)
  let parts := appendIf parts install_type
    ("<b>Installation Type:</b> " ++ htmlEscape install_type)
  let parts := appendIf parts install_elev
    ("<b>Installed Elevation:</b> " ++ htmlEscape install_elev)
  let parts := appendIf parts installed_date
    ("<b>Installed Date:</b> " ++ htmlEscape installed_date)
  let parts := appendIf parts last_updated_date
    ("<b>Last Updated Date:</b> " ++ htmlEscape last_updated_date)
  let parts := appendIf parts decommissioned_date
    ("<b>Decommissioned Date:</b> " ++ htmlEscape decommissioned_date)
  let parts := appendIf parts fcc_id ("<b>FCC ID:</b> " ++ htmlEscape fcc_id)
  let parts := appendIf parts fcc_link (fccLinkPart fcc_link)
  let parts := appendIf parts notes ("<b>Notes:</b> " ++ htmlEscape notes)
  let parts := parts ++
    ["<i>Updated (UTC):</i> " ++ nowStr,
     "<i>Refresh:</i> every " ++ toString (refresh / 60) ++ " minutes"]
  String.intercalate "<br/>" parts

/-- `p_style` of a prospective row: a `#p-cat-…` reference when the category
is a key of the color table, the empty string otherwise. -/
def prospectiveStyleText (category : String) : String :=
  if dictContains PROSPECTIVE_CATEGORY_COLORS category then
    "#" ++ style_id "p-cat-" category
  else ""

/-- `i_style` of an installed row (keyed by Node Status). -/
def installedStyleText (node_status : String) : String :=
  if dictContains INSTALLED_STATUS_COLORS node_status then
    "#" ++ style_id "i-status-" node_status
  else ""

/-- `"<styleUrl>…</styleUrl>" if style else ""`. -/
def styleUrlSegment (styleText : String) : String :=
  if styleText = "" then "" else "<styleUrl>" ++ htmlEscape styleText ++ "</styleUrl>"

/-- The placemark XML fragment (shared shape of both loops). -/
def placemarkXml (displayName styleText desc : String) (lat lon : Rat) : String :=
  "\n      <Placemark>\n        <name>" ++ htmlEscape displayName ++ "</name>\n        "
    ++ styleUrlSegment styleText
    ++ "\n        <description><![CDATA[" ++ desc
    ++ "]]></description>\n        <Point><coordinates>"
    ++ pyFloatRepr lon ++ "," ++ pyFloatRepr lat
    ++ "</coordinates></Point>\n      </Placemark>"

-- -----------------------
-- The per-sheet loops
-- -----------------------

/-- `prospective_folders`: category → list of `(name.lower(), placemark)`. -/
abbrev Folders : Type := List (String × List (String × String))

/-- What one prospective row contributes: its folder key and its
`(sort_key, placemark_xml)` pair, or nothing when the row is skipped. -/
def prospectiveEntry (nowStr : String) (refresh : Nat) (cols : List String) (row : Row) :
    Option (String × (String × String)) :=
  match prospectiveChecked row with
  | none => none
  | some c =>
    some (c.category,
      (pyLower c.name,
       placemarkXml c.name (prospectiveStyleText c.category)
         (prospectiveDesc nowStr refresh cols row c.name c.category) c.lat c.lon))

/-- Body shared by both per-row loops over the `(folders, skipped)` state:
a skipped row bumps the counter, a kept row appends its entry under its key. -/
def loopStep (entryF : Row → Option (String × (String × String)))
    (st : Folders × Nat) (row : Row) : Folders × Nat :=
  match entryF row with
  | none => (st.1, st.2 + 1)
  | some (k, e) => (dictSetdefaultAppend st.1 k e, st.2)

/-- One iteration of the prospective loop over `(folders, skipped)`. -/
def prospectiveStep (nowStr : String) (refresh : Nat) (cols : List String) :
    Folders × Nat → Row → Folders × Nat :=
  loopStep (prospectiveEntry nowStr refresh cols)

/-- The whole prospective loop. -/
def processProspective (nowStr : String) (refresh : Nat) (cols : List String)
    (rows : List Row) : Folders × Nat :=
  rows.foldl (prospectiveStep nowStr refresh cols) ([], 0)

/-- What one installed row contributes. -/
def installedEntry (nowStr : String) (refresh : Nat) (cols : List String) (row : Row) :
    Option (String × (String × String)) :=
  match installedChecked row with
  | none => none
  | some c =>
    some (c.nodeClass,
      (pyLower c.nodeName,
       placemarkXml c.nodeName (installedStyleText c.nodeStatus)
         (installedDesc nowStr refresh cols row c.nodeId c.nodeName c.nodeClass c.nodeStatus)
         c.lat c.lon))

/-- One iteration of the installed loop. -/
def installedStep (nowStr : String) (refresh : Nat) (cols : List String) :
    Folders × Nat → Row → Folders × Nat :=
  loopStep (installedEntry nowStr refresh cols)

/-- The whole installed loop. -/
def processInstalled (nowStr : String) (refresh : Nat) (cols : List String)
    (rows : List Row) : Folders × Nat :=
  rows.foldl (installedStep nowStr refresh cols) ([], 0)

-- -----------------------
-- Build styles
-- -----------------------

/-- The `<Style>` blocks: one per key of each color table, icons falling
back to the sheet's default icon URL. -/
def style_blocks : List String :=
  PROSPECTIVE_CATEGORY_COLORS.map
    (fun p => build_style_block (style_id "p-cat-" p.1) p.2
      (dictGetD PROSPECTIVE_CATEGORY_ICONS p.1 PROSPECTIVE_DEFAULT_ICON_URL)) ++
  INSTALLED_STATUS_COLORS.map
    (fun p => build_style_block (style_id "i-status-" p.1) p.2
      (dictGetD INSTALLED_STATUS_ICONS p.1 INSTALLED_DEFAULT_ICON_URL))

/-- `styles_xml = "\n".join(style_blocks)`. -/
def styles_xml : String :=
  String.intercalate "\n" style_blocks

-- -----------------------
-- Build folder XML
-- -----------------------

/-- Boolean comparison derived from `sort_key_with_preferred_order`
(Python's `sorted(…, key=…)` compares keys). -/
def catLe (preferred : List String) (a b : String) : Bool :=
  keyLe (sort_key_with_preferred_order a preferred) (sort_key_with_preferred_order b preferred)

/-- `sorted(folders.keys(), key=lambda c: sort_key_with_preferred_order(c, preferred))`
(Python's sort is a stable mergesort). -/
def sortedKeys (folders : Folders) (preferred : List String) : List String :=
  (dictKeys folders).mergeSort (catLe preferred)

/-- Comparison of `(sort_key, placemark)` entries by their first component. -/
def entryLe (a b : String × String) : Bool :=
  pyStrLe a.1 b.1

/-- `entries.sort(key=lambda x: x[0])`. -/
def sortedEntries (entries : List (String × String)) : List (String × String) :=
  entries.mergeSort entryLe

/-- A per-category (resp. per-class) subfolder. -/
def subfolderXml (nm pms : String) : String :=
  "\n      <Folder>\n        <name>" ++ htmlEscape nm
    ++ "</name>\n        <visibility>1</visibility>\n        <open>0</open>\n        "
    ++ pms ++ "\n      </Folder>"

/-- A sheet's top folder (`Prospective Nodes` / `Installed Nodes`) with its
sorted subfolders, each holding its name-sorted placemarks. -/
def sheetFolderXml (topName : String) (folders : Folders) (preferred : List String) : String :=
  let parts := (sortedKeys folders preferred).map
    (fun cat =>
      subfolderXml cat
        (String.join ((sortedEntries (dictGetD folders cat [])).map (fun e => e.2))))
  "\n    <Folder>\n      <name>" ++ htmlEscape topName
    ++ "</name>\n      <visibility>1</visibility>\n      <open>0</open>\n      "
    ++ String.join parts ++ "\n    </Folder>"

-- -----------------------
-- Emit the two documents
-- -----------------------

/-- `sites.kml` (the f-string of the source, as literal segments). -/
def sites_kml (nowStr : String) (pSkipped iSkipped : Nat)
    (stylesXml prospectiveXml installedXml : String) : String :=
  "<?xml version=\"1.0\" encoding=\"UTF-8\"?>\n<kml xmlns=\"http://www.opengis.net/kml/2.2\">\n  <Document>\n    <name>"
    ++ htmlEscape DATASET_NAME
    ++ "</name>\n    <open>1</open>\n    <description><![CDATA[\n      Live dataset generated from Google Sheets.<br/>\n      Updated (UTC): "
    ++ nowStr
    ++ "<br/>\n      "
    ++ "Prospective rows skipped: "
    ++ toString pSkipped
    ++ "<br/>\n      "
    ++ "Installed rows skipped: "
    ++ toString iSkipped
    ++ "\n    ]]></description>\n"
    ++ stylesXml ++ "\n" ++ prospectiveXml ++ "\n" ++ installedXml
    ++ "\n  </Document>\n</kml>\n"

/-- `networklink.kml`; the `href` defaults when `DATASET_URL` is empty. -/
def networklink_kml (datasetUrl : String) (refresh : Nat) : String :=
  let href := pyOr datasetUrl DEFAULT_DATASET_HREF
  "<?xml version=\"1.0\" encoding=\"UTF-8\"?>\n<kml xmlns=\"http://www.opengis.net/kml/2.2\">\n  <NetworkLink>\n    <name>"
    ++ htmlEscape NETWORKLINK_NAME
    ++ "</name>\n    <Link>\n      <href>"
    ++ htmlEscape href
    ++ "</href>\n      "
    ++ "<refreshMode>onInterval</refreshMode>"
    ++ "\n      <refreshInterval>"
    ++ toString refresh
    ++ "</refreshInterval>"
    ++ "\n    </Link>\n  </NetworkLink>\n</kml>\n"

/-- `main` after the external collaborators (HTTP fetch, CSV tokenizer,
clock, environment, file sink) are factored out: it receives the header and
rows of both sheets plus the configuration, and either fails (`die`) before
writing anything, or produces the two output documents. The error strings
abbreviate `die`'s formatted message (whose exact text no claim concerns). -/
def runMain (nowStr : String) (refresh : Nat) (datasetUrl : String)
    (pcols : List String) (prows : List Row)
    (icols : List String) (irows : List Row) : Except String (String × String) :=
  if missingColumns PROSPECTIVE_REQUIRED_COLUMNS pcols ≠ [] then
    Except.error "Prospective sheet missing required columns"
  else
    let pres := processProspective nowStr refresh pcols prows
    if missingColumns INSTALLED_REQUIRED_COLUMNS icols ≠ [] then
      Except.error "Installed sheet missing required columns"
    else
      let ires := processInstalled nowStr refresh icols irows
      Except.ok
        (sites_kml nowStr pres.2 ires.2 styles_xml
          (sheetFolderXml "Prospective Nodes" pres.1 PROSPECTIVE_CATEGORY_ORDER)
          (sheetFolderXml "Installed Nodes" ires.1 NODE_CLASS_ORDER),
         networklink_kml datasetUrl refresh)

/-- Total number of placemarks stored in a folders map. -/
def countPlacemarks (folders : Folders) : Nat :=
  (folders.map (fun p => p.2.length)).sum

-- Concrete inputs used by witnesses and counterexamples.

def exampleCols : List String := ["Name", "Latitude", "Longitude", "Category"]

def exampleRowA : Row := [("Name", "A"), ("Latitude", "1"), ("Longitude", "2"), ("Category", "x")]

def exampleRowB : Row := [("Name", "a"), ("Latitude", "1"), ("Longitude", "2"), ("Category", "x")]

def exampleBadRow : Row := [("Name", ""), ("Latitude", "1"), ("Longitude", "2"), ("Category", "x")]

def exampleInstalledRow : Row :=
  [("Node ID", "N1"), ("Node Name", "Alpha"), ("Latitude", "35"), ("Longitude", "-94"),
   ("Node Class", "Backbone"), ("Node Status", "In Service")]

-- -----------------------
-- Helper lemmas
-- -----------------------

theorem dictGet_mem {α : Type} {d : List (String × α)} {k : String} {v : α}
    (h : dictGet d k = some v) : (k, v) ∈ d := by
  induction d with
  | nil => simp [dictGet] at h
  | cons hd tl ih =>
    obtain ⟨k', v'⟩ := hd
    by_cases hk : k' = k
    · subst hk
      simp [dictGet] at h
      subst h
      exact List.mem_cons_self _ _
    · simp only [dictGet, if_neg hk] at h
      exact List.mem_cons_of_mem _ (ih h)

theorem dictGetD_setdefaultAppend {α : Type} (d : List (String × List α)) (k k' : String) (v : α) :
    dictGetD (dictSetdefaultAppend d k v) k' [] =
      if k' = k then dictGetD d k' [] ++ [v] else dictGetD d k' [] := by
  induction d with
  | nil =>
    by_cases hk : k = k'
    · subst hk; simp [dictSetdefaultAppend, dictGetD, dictGet]
    · simp [dictSetdefaultAppend, dictGetD, dictGet, hk, Ne.symm hk]
  | cons hd tl ih =>
    obtain ⟨a, vs⟩ := hd
    simp only [dictGetD] at ih ⊢
    by_cases hak : a = k
    · subst hak
      by_cases hk : a = k'
      · subst hk; simp [dictSetdefaultAppend, dictGet]
      · simp [dictSetdefaultAppend, dictGet, hk, Ne.symm hk]
    · by_cases hak' : a = k'
      · subst hak'
        simp [dictSetdefaultAppend, dictGet, hak, Ne.symm hak]
      · simp [dictSetdefaultAppend, dictGet, hak, hak', ih]

theorem countPlacemarks_setdefaultAppend (d : Folders) (k : String) (v : String × String) :
    countPlacemarks (dictSetdefaultAppend d k v) = countPlacemarks d + 1 := by
  induction d with
  | nil => simp [dictSetdefaultAppend, countPlacemarks]
  | cons hd tl ih =>
    obtain ⟨a, vs⟩ := hd
    by_cases hak : a = k <;>
      simp [dictSetdefaultAppend, countPlacemarks, hak] at ih ⊢ <;> omega

theorem loopStep_skip (entryF : Row → Option (String × (String × String)))
    (st : Folders × Nat) (row : Row) (rest : List Row)
    (h : entryF row = none) :
    List.foldl (loopStep entryF) st (row :: rest) =
      List.foldl (loopStep entryF) (st.1, st.2 + 1) rest := by
  rw [List.foldl_cons]
  simp [loopStep, h]

theorem loopStep_group (entryF : Row → Option (String × (String × String)))
    (st : Folders × Nat) (row : Row) (k : String) (e : String × String)
    (h : entryF row = some (k, e)) (k' : String) :
    dictGetD (loopStep entryF st row).1 k' [] =
      if k' = k then dictGetD st.1 k' [] ++ [e] else dictGetD st.1 k' [] := by
  simp [loopStep, h, dictGetD_setdefaultAppend]

theorem loopStep_foldl_count (entryF : Row → Option (String × (String × String))) :
    ∀ (rows : List Row) (st : Folders × Nat),
      countPlacemarks (rows.foldl (loopStep entryF) st).1 + (rows.foldl (loopStep entryF) st).2 =
        countPlacemarks st.1 + st.2 + rows.length := by
  intro rows
  induction rows with
  | nil => intro st; simp
  | cons row rest ih =>
    intro st
    rw [List.foldl_cons, ih]
    cases h : entryF row with
    | none => simp [loopStep, h]; omega
    | some ke =>
      obtain ⟨k, e⟩ := ke
      simp [loopStep, h, countPlacemarks_setdefaultAppend]
      omega

theorem loopStep_foldl_mem (entryF : Row → Option (String × (String × String))) :
    ∀ (rows : List Row) (st : Folders × Nat) (k : String) (e : String × String),
      e ∈ dictGetD (rows.foldl (loopStep entryF) st).1 k [] →
      e ∈ dictGetD st.1 k [] ∨ ∃ row ∈ rows, entryF row = some (k, e) := by
  intro rows
  induction rows with
  | nil => intro st k e h; exact Or.inl h
  | cons row rest ih =>
    intro st k e h
    rw [List.foldl_cons] at h
    rcases ih _ k e h with h' | ⟨r, hr, hre⟩
    · cases hrow : entryF row with
      | none =>
        left
        simpa [loopStep, hrow] using h'
      | some ke =>
        obtain ⟨k', e'⟩ := ke
        rw [loopStep_group entryF st row k' e' hrow k] at h'
        by_cases hk : k = k'
        · subst hk
          rw [if_pos rfl, List.mem_append] at h'
          rcases h' with h'' | h''
          · exact Or.inl h''
          · right
            refine ⟨row, List.mem_cons_self _ _, ?_⟩
            rw [hrow, List.mem_singleton.mp h'']
        · rw [if_neg hk] at h'
          exact Or.inl h'
    · exact Or.inr ⟨r, List.mem_cons_of_mem _ hr, hre⟩

theorem prospectiveChecked_some {row : Row} {c : PChecked}
    (h : prospectiveChecked row = some c) :
    c.name = getStr row "Name" ∧ c.category = getStr row "Category" ∧
    safe_float (rowGet row "Latitude") = some c.lat ∧
    safe_float (rowGet row "Longitude") = some c.lon ∧
    c.name ≠ "" ∧ c.category ≠ "" ∧
    -90 ≤ c.lat ∧ c.lat ≤ 90 ∧ -180 ≤ c.lon ∧ c.lon ≤ 180 := by
  simp only [prospectiveChecked] at h
  cases hla : safe_float (rowGet row "Latitude") with
  | none => rw [hla] at h; simp at h
  | some la =>
  cases hlo : safe_float (rowGet row "Longitude") with
  | none => rw [hla, hlo] at h; simp at h
  | some lo =>
  rw [hla, hlo] at h
  by_cases hn : getStr row "Name" = ""
  · simp [hn] at h
  by_cases hc : getStr row "Category" = ""
  · simp [hc] at h
  by_cases hb : -90 ≤ la ∧ la ≤ 90 ∧ -180 ≤ lo ∧ lo ≤ 180
  · simp only [hn, hc, hb] at h
    simp at h
    obtain ⟨rfl⟩ := h.symm
    exact ⟨rfl, rfl, rfl, rfl, hn, hc, hb.1, hb.2.1, hb.2.2.1, hb.2.2.2⟩
  · simp [hn, hc, hb] at h

theorem installedChecked_some {row : Row} {c : IChecked}
    (h : installedChecked row = some c) :
    c.nodeId = getStr row "Node ID" ∧ c.nodeName = getStr row "Node Name" ∧
    c.nodeClass = getStr row "Node Class" ∧ c.nodeStatus = getStr row "Node Status" ∧
    safe_float (rowGet row "Latitude") = some c.lat ∧
    safe_float (rowGet row "Longitude") = some c.lon ∧
    c.nodeId ≠ "" ∧ c.nodeName ≠ "" ∧ c.nodeClass ≠ "" ∧ c.nodeStatus ≠ "" ∧
    -90 ≤ c.lat ∧ c.lat ≤ 90 ∧ -180 ≤ c.lon ∧ c.lon ≤ 180 := by
  simp only [installedChecked] at h
  cases hla : safe_float (rowGet row "Latitude") with
  | none => rw [hla] at h; simp at h
  | some la =>
  cases hlo : safe_float (rowGet row "Longitude") with
  | none => rw [hla, hlo] at h; simp at h
  | some lo =>
  rw [hla, hlo] at h
  by_cases h1 : getStr row "Node ID" = ""
  · simp [h1] at h
  by_cases h2 : getStr row "Node Name" = ""
  · simp [h2] at h
  by_cases h3 : getStr row "Node Class" = ""
  · simp [h3] at h
  by_cases h4 : getStr row "Node Status" = ""
  · simp [h4] at h
  by_cases hb : -90 ≤ la ∧ la ≤ 90 ∧ -180 ≤ lo ∧ lo ≤ 180
  · simp only [h1, h2, h3, h4, hb] at h
    simp at h
    obtain ⟨rfl⟩ := h.symm
    exact ⟨rfl, rfl, rfl, rfl, rfl, rfl, h1, h2, h3, h4,
      hb.1, hb.2.1, hb.2.2.1, hb.2.2.2⟩
  · simp [h1, h2, h3, h4, hb] at h

theorem charListLe_total : ∀ xs ys, charListLe xs ys || charListLe ys xs := by
  intro xs
  induction xs with
  | nil => intro ys; simp [charListLe]
  | cons a as ih =>
    intro ys
    cases ys with
    | nil => simp [charListLe]
    | cons b bs =>
      simp only [charListLe]
      by_cases h1 : a.toNat < b.toNat
      · simp [h1]
      · by_cases h2 : b.toNat < a.toNat
        · simp [h1, h2]
        · simpa [h1, h2] using ih bs

theorem charListLe_trans :
    ∀ xs ys zs, charListLe xs ys → charListLe ys zs → charListLe xs zs := by
  intro xs
  induction xs with
  | nil => intro ys zs h1 h2; simp [charListLe]
  | cons a as ih =>
    intro ys zs h1 h2
    cases ys with
    | nil => simp [charListLe] at h1
    | cons b bs =>
      cases zs with
      | nil => simp [charListLe] at h2
      | cons c cs =>
        simp only [charListLe] at h1 h2 ⊢
        by_cases hab : a.toNat < b.toNat <;> by_cases hba : b.toNat < a.toNat <;>
          by_cases hbc : b.toNat < c.toNat <;> by_cases hcb : c.toNat < b.toNat <;>
          by_cases hac : a.toNat < c.toNat <;> by_cases hca : c.toNat < a.toNat <;>
          simp_all <;>
          first
          | omega
          | exact ih bs cs h1 h2
          | exact Or.inr (ih bs cs h1 h2)

theorem pyStrLe_total (a b : String) : pyStrLe a b || pyStrLe b a :=
  charListLe_total a.data b.data

theorem pyStrLe_trans {a b c : String} (h1 : pyStrLe a b) (h2 : pyStrLe b c) :
    pyStrLe a c :=
  charListLe_trans a.data b.data c.data h1 h2

theorem keyLe_trans :
    ∀ x y z : Nat × Nat × String, keyLe x y → keyLe y z → keyLe x z := by
  intro x y z h1 h2
  simp only [keyLe] at h1 h2 ⊢
  split_ifs at h1 h2 ⊢ <;> first
    | rfl
    | exact pyStrLe_trans h1 h2
    | omega

theorem keyLe_total :
    ∀ x y : Nat × Nat × String, keyLe x y || keyLe y x := by
  intro x y
  simp only [keyLe]
  split_ifs <;> first
    | rfl
    | omega
    | exact pyStrLe_total _ _

theorem catLe_trans (preferred : List String) :
    ∀ a b c, catLe preferred a b → catLe preferred b c → catLe preferred a c := by
  intro a b c hab hbc
  exact keyLe_trans _ _ _ hab hbc

theorem catLe_total (preferred : List String) :
    ∀ a b, catLe preferred a b || catLe preferred b a := by
  intro a b
  exact keyLe_total _ _

theorem entryLe_trans : ∀ a b c : String × String, entryLe a b → entryLe b c → entryLe a c := by
  intro a b c hab hbc
  exact pyStrLe_trans hab hbc

theorem entryLe_total : ∀ a b : String × String, entryLe a b || entryLe b a := by
  intro a b
  exact pyStrLe_total _ _

theorem catLe_iff (preferred : List String) (a b : String) :
    catLe preferred a b = true ↔
      ((a ∈ preferred ∧ b ∈ preferred ∧
          List.indexOf a preferred ≤ List.indexOf b preferred) ∨
       (a ∈ preferred ∧ b ∉ preferred) ∨
       (a ∉ preferred ∧ b ∉ preferred ∧ pyStrLe (pyLower a) (pyLower b) = true)) := by
  by_cases ha : a ∈ preferred <;> by_cases hb : b ∈ preferred <;>
    simp [catLe, sort_key_with_preferred_order, keyLe, ha, hb, pyStrLe, pyLower,
      charListLe] <;>
    omega

-- -----------------------
-- Claim theorems
-- -----------------------

/-- C9: for each sheet, every row is either rendered into exactly one
placemark or counted as skipped, so the number of placemarks collected for
the sheet plus the sheet's skipped count equals the number of data rows
read from that sheet. -/
theorem rows_partition_markers_skipped
    (nowStr : String) (refresh : Nat) (pcols icols : List String)
    (prows irows : List Row) :
    countPlacemarks (processProspective nowStr refresh pcols prows).1 +
        (processProspective nowStr refresh pcols prows).2 = prows.length ∧
    countPlacemarks (processInstalled nowStr refresh icols irows).1 +
        (processInstalled nowStr refresh icols irows).2 = irows.length := by
  constructor
  · have h := loopStep_foldl_count (prospectiveEntry nowStr refresh pcols) prows ([], 0)
    simpa [processProspective, prospectiveStep, countPlacemarks] using h
  · have h := loopStep_foldl_count (installedEntry nowStr refresh icols) irows ([], 0)
    simpa [processInstalled, installedStep, countPlacemarks] using h

/-- C3: a malformed row (required field empty after stripping, unparsable
coordinate, or out-of-range coordinate) produces no marker, bumps the
sheet's skipped counter by exactly one, and processing continues with the
remaining rows; the final skipped counts of both sheets are interpolated
into the sites document's description. -/
theorem malformed_row_skipped_and_counted
    (nowStr : String) (refresh : Nat) (cols : List String) (st : Folders × Nat)
    (row : Row) (rest : List Row) :
    (prospectiveChecked row = none →
      List.foldl (prospectiveStep nowStr refresh cols) st (row :: rest) =
        List.foldl (prospectiveStep nowStr refresh cols) (st.1, st.2 + 1) rest) ∧
    (installedChecked row = none →
      List.foldl (installedStep nowStr refresh cols) st (row :: rest) =
        List.foldl (installedStep nowStr refresh cols) (st.1, st.2 + 1) rest) ∧
    (∀ (pSkipped iSkipped : Nat) (stylesX pXml iXml : String),
      ∃ pre mid post : String,
        sites_kml nowStr pSkipped iSkipped stylesX pXml iXml =
          pre ++ "Prospective rows skipped: " ++ toString pSkipped ++
            mid ++ "Installed rows skipped: " ++ toString iSkipped ++ post) := by
  refine ⟨?_, ?_, ?_⟩
  · intro h
    have he : prospectiveEntry nowStr refresh cols row = none := by
      simp [prospectiveEntry, h]
    exact loopStep_skip _ st row rest he
  · intro h
    have he : installedEntry nowStr refresh cols row = none := by
      simp [installedEntry, h]
    exact loopStep_skip _ st row rest he
  · intro pSkipped iSkipped stylesX pXml iXml
    refine
      ⟨"<?xml version=\"1.0\" encoding=\"UTF-8\"?>\n<kml xmlns=\"http://www.opengis.net/kml/2.2\">\n  <Document>\n    <name>"
          ++ htmlEscape DATASET_NAME
          ++ "</name>\n    <open>1</open>\n    <description><![CDATA[\n      Live dataset generated from Google Sheets.<br/>\n      Updated (UTC): "
          ++ nowStr ++ "<br/>\n      ",
        "<br/>\n      ",
        "\n    ]]></description>\n" ++ stylesX ++ "\n" ++ pXml ++ "\n" ++ iXml
          ++ "\n  </Document>\n</kml>\n", ?_⟩
    simp [sites_kml, String.append_assoc]

/-- C6: a valid row's marker is appended to exactly the subfolder group
keyed by its Category (prospective) resp. Node Class (installed) value;
every other group is left unchanged by that row. -/
theorem marker_single_group
    (nowStr : String) (refresh : Nat) (cols : List String) (st : Folders × Nat)
    (row : Row) (k : String) (e : String × String) :
    (prospectiveEntry nowStr refresh cols row = some (k, e) →
      k = getStr row "Category" ∧
      ∀ k', dictGetD (prospectiveStep nowStr refresh cols st row).1 k' [] =
        if k' = k then dictGetD st.1 k' [] ++ [e] else dictGetD st.1 k' []) ∧
    (installedEntry nowStr refresh cols row = some (k, e) →
      k = getStr row "Node Class" ∧
      ∀ k', dictGetD (installedStep nowStr refresh cols st row).1 k' [] =
        if k' = k then dictGetD st.1 k' [] ++ [e] else dictGetD st.1 k' []) := by
  constructor
  · intro h
    refine ⟨?_, loopStep_group _ st row k e h⟩
    cases hc : prospectiveChecked row with
    | none => simp [prospectiveEntry, hc] at h
    | some c =>
      have hx := prospectiveChecked_some hc
      simp only [prospectiveEntry, hc, Option.some.injEq, Prod.mk.injEq] at h
      exact h.1 ▸ hx.2.1
  · intro h
    refine ⟨?_, loopStep_group _ st row k e h⟩
    cases hc : installedChecked row with
    | none => simp [installedEntry, hc] at h
    | some c =>
      have hx := installedChecked_some hc
      simp only [installedEntry, hc, Option.some.injEq, Prod.mk.injEq] at h
      exact h.1 ▸ hx.2.2.1

/-- C1: every placemark collected for the sites document has its latitude
in [-90, 90] and longitude in [-180, 180], and was rendered from a row
whose Name and Category (prospective sheet) resp. Node ID, Node Name,
Node Class and Node Status (installed sheet) are non-empty after stripping
whitespace. -/
theorem emitted_marker_invariants
    (nowStr : String) (refresh : Nat) (pcols icols : List String)
    (prows irows : List Row) (key : String) (e : String × String) :
    (e ∈ dictGetD (processProspective nowStr refresh pcols prows).1 key [] →
      ∃ row ∈ prows, ∃ la lo : Rat,
        safe_float (rowGet row "Latitude") = some la ∧
        safe_float (rowGet row "Longitude") = some lo ∧
        -90 ≤ la ∧ la ≤ 90 ∧ -180 ≤ lo ∧ lo ≤ 180 ∧
        getStr row "Name" ≠ "" ∧ getStr row "Category" ≠ "" ∧
        key = getStr row "Category" ∧
        e.2 = placemarkXml (getStr row "Name") (prospectiveStyleText key)
          (prospectiveDesc nowStr refresh pcols row (getStr row "Name") key) la lo) ∧
    (e ∈ dictGetD (processInstalled nowStr refresh icols irows).1 key [] →
      ∃ row ∈ irows, ∃ la lo : Rat,
        safe_float (rowGet row "Latitude") = some la ∧
        safe_float (rowGet row "Longitude") = some lo ∧
        -90 ≤ la ∧ la ≤ 90 ∧ -180 ≤ lo ∧ lo ≤ 180 ∧
        getStr row "Node ID" ≠ "" ∧ getStr row "Node Name" ≠ "" ∧
        getStr row "Node Class" ≠ "" ∧ getStr row "Node Status" ≠ "" ∧
        key = getStr row "Node Class" ∧
        e.2 = placemarkXml (getStr row "Node Name")
          (installedStyleText (getStr row "Node Status"))
          (installedDesc nowStr refresh icols row (getStr row "Node ID")
            (getStr row "Node Name") (getStr row "Node Class")
            (getStr row "Node Status")) la lo) := by
  constructor
  · intro hmem
    simp only [processProspective, prospectiveStep] at hmem
    rcases loopStep_foldl_mem (prospectiveEntry nowStr refresh pcols) prows ([], 0) key e hmem
      with hnil | ⟨row, hrow, hentry⟩
    · simp [dictGetD, dictGet] at hnil
    · cases hc : prospectiveChecked row with
      | none => simp [prospectiveEntry, hc] at hentry
      | some c =>
        obtain ⟨hn, hcat, hla, hlo, hne, hce, hb1, hb2, hb3, hb4⟩ := prospectiveChecked_some hc
        simp only [prospectiveEntry, hc, Option.some.injEq, Prod.mk.injEq] at hentry
        obtain ⟨hk, he⟩ := hentry
        refine ⟨row, hrow, c.lat, c.lon, hla, hlo, hb1, hb2, hb3, hb4,
          hn ▸ hne, hcat ▸ hce, hk ▸ hcat ▸ rfl, ?_⟩
        rw [← he, ← hk, ← hn]
  · intro hmem
    simp only [processInstalled, installedStep] at hmem
    rcases loopStep_foldl_mem (installedEntry nowStr refresh icols) irows ([], 0) key e hmem
      with hnil | ⟨row, hrow, hentry⟩
    · simp [dictGetD, dictGet] at hnil
    · cases hc : installedChecked row with
      | none => simp [installedEntry, hc] at hentry
      | some c =>
        obtain ⟨h1, h2, h3, h4, hla, hlo, k1, k2, k3, k4, hb1, hb2, hb3, hb4⟩ :=
          installedChecked_some hc
        simp only [installedEntry, hc, Option.some.injEq, Prod.mk.injEq] at hentry
        obtain ⟨hk, he⟩ := hentry
        refine ⟨row, hrow, c.lat, c.lon, hla, hlo, hb1, hb2, hb3, hb4,
          h1 ▸ k1, h2 ▸ k2, h3 ▸ k3, h4 ▸ k4, hk ▸ h3 ▸ rfl, ?_⟩
        rw [← he, ← h1, ← h2, ← h3, ← h4]

set_option maxRecDepth 100000 in
/-- C5 counterexample: the hierarchy is not a function of the multiset of
valid rows. Two valid rows whose display names differ only in case share the
sort key `name.lower()`; the stable sort then keeps input order, so the two
orderings of the same two-row multiset produce different folder XML. -/
theorem hierarchy_multiset_counterexample :
    List.Perm [exampleRowA, exampleRowB] [exampleRowB, exampleRowA] ∧
    sheetFolderXml "Prospective Nodes"
        (processProspective "t" 600 exampleCols [exampleRowA, exampleRowB]).1
        PROSPECTIVE_CATEGORY_ORDER ≠
      sheetFolderXml "Prospective Nodes"
        (processProspective "t" 600 exampleCols [exampleRowB, exampleRowA]).1
        PROSPECTIVE_CATEGORY_ORDER := by
  refine ⟨List.Perm.swap exampleRowB exampleRowA [], ?_⟩
  have hd1 : dictKeys (processProspective "t" 600 exampleCols
      [exampleRowA, exampleRowB]).1 = ["x"] := by decide
  have hd2 : dictKeys (processProspective "t" 600 exampleCols
      [exampleRowB, exampleRowA]).1 = ["x"] := by decide
  have hs1 : sortedEntries (dictGetD (processProspective "t" 600 exampleCols
        [exampleRowA, exampleRowB]).1 "x" []) =
      dictGetD (processProspective "t" 600 exampleCols
        [exampleRowA, exampleRowB]).1 "x" [] :=
    List.mergeSort_of_sorted (by decide)
  have hs2 : sortedEntries (dictGetD (processProspective "t" 600 exampleCols
        [exampleRowB, exampleRowA]).1 "x" []) =
      dictGetD (processProspective "t" 600 exampleCols
        [exampleRowB, exampleRowA]).1 "x" [] :=
    List.mergeSort_of_sorted (by decide)
  simp only [sheetFolderXml, sortedKeys, hd1, hd2, List.mergeSort_singleton,
    List.map_cons, List.map_nil, hs1, hs2]
  decide

/-- C5 (amended): for every sequence of valid input rows the hierarchy is
deterministic and ordered as described — subfolder keys are a permutation of
the grouped keys sorted by the preferred-order comparison (listed values by
their list position, listed before unlisted, unlisted by lowercased value),
and within a subfolder the entries (keyed by the lowercased display name)
are sorted ascending; ties between distinct values sharing a sort key keep
input order, so only sequence equality — not multiset equality — guarantees
identical documents. -/
theorem hierarchy_order_amended (folders : Folders) (preferred : List String)
    (entries : List (String × String)) (a b : String) :
    (sortedKeys folders preferred).Perm (dictKeys folders) ∧
    (sortedKeys folders preferred).Pairwise (fun x y => catLe preferred x y = true) ∧
    (catLe preferred a b = true ↔
      ((a ∈ preferred ∧ b ∈ preferred ∧
          List.indexOf a preferred ≤ List.indexOf b preferred) ∨
       (a ∈ preferred ∧ b ∉ preferred) ∨
       (a ∉ preferred ∧ b ∉ preferred ∧ pyStrLe (pyLower a) (pyLower b) = true))) ∧
    (sortedEntries entries).Perm entries ∧
    (sortedEntries entries).Pairwise (fun x y => pyStrLe x.1 y.1 = true) ∧
    (∀ (nowStr : String) (refresh : Nat) (cols : List String) (row : Row)
        (k : String) (e : String × String),
      prospectiveEntry nowStr refresh cols row = some (k, e) →
      e.1 = pyLower (getStr row "Name")) ∧
    (∀ (nowStr : String) (refresh : Nat) (cols : List String) (row : Row)
        (k : String) (e : String × String),
      installedEntry nowStr refresh cols row = some (k, e) →
      e.1 = pyLower (getStr row "Node Name")) := by
  refine ⟨List.mergeSort_perm _ _, ?_, catLe_iff preferred a b,
    List.mergeSort_perm _ _, ?_, ?_, ?_⟩
  · exact List.sorted_mergeSort (catLe_trans preferred) (catLe_total preferred)
      (dictKeys folders)
  · have h := List.sorted_mergeSort entryLe_trans entryLe_total entries
    exact h.imp (fun hxy => hxy)
  · intro nowStr refresh cols row k e h
    cases hc : prospectiveChecked row with
    | none => simp [prospectiveEntry, hc] at h
    | some c =>
      have hx := prospectiveChecked_some hc
      simp only [prospectiveEntry, hc, Option.some.injEq, Prod.mk.injEq] at h
      rw [← h.2, ← hx.1]
  · intro nowStr refresh cols row k e h
    cases hc : installedChecked row with
    | none => simp [installedEntry, hc] at h
    | some c =>
      have hx := installedChecked_some hc
      simp only [installedEntry, hc, Option.some.injEq, Prod.mk.injEq] at h
      rw [← h.2, ← hx.2.1]

set_option maxRecDepth 100000 in
theorem hierarchy_order_amended_witness :
    (sortedEntries [("b", "x"), ("a", "y")]).Pairwise (fun x y => pyStrLe x.1 y.1 = true) ∧
    ("a",
      placemarkXml "A" (prospectiveStyleText "x")
        (prospectiveDesc "t" 600 exampleCols exampleRowA "A" "x") 1 2).1 =
      pyLower (getStr exampleRowA "Name") := by
  constructor
  · exact (hierarchy_order_amended [] [] [("b", "x"), ("a", "y")] "" "").2.2.2.2.1
  · exact (hierarchy_order_amended [] [] [] "" "").2.2.2.2.2.1
      "t" 600 exampleCols exampleRowA "x" _ (by decide)

set_option maxRecDepth 100000 in
/-- C4 counterexample: the category `"Misc"` has no listed (color, icon)
style, and the marker rendered for it carries no `styleUrl` at all — no
fallback default style is applied to the marker. -/
theorem no_fallback_style_counterexample :
    dictGet PROSPECTIVE_CATEGORY_COLORS "Misc" = none ∧
    prospectiveStyleText "Misc" = "" ∧
    ¬ ("<styleUrl>".data <:+:
        (placemarkXml "Site" (prospectiveStyleText "Misc") "desc" 1 2).data) := by
  refine ⟨rfl, rfl, by decide⟩

/-- C4 (amended): the style of a marker is keyed by its classification value
(Category for prospective rows, Node Status for installed rows); a marker
whose classification value is a key of the corresponding color table gets a
styleUrl referencing that key's style; a marker whose value is not listed
gets no styleUrl at all (no fallback style is applied to the marker). The
fallback default applies only to icons: the style generated for a listed
color key whose icon is unlisted uses the sheet's default icon URL. -/
theorem style_selection_amended (category status : String) :
    (dictContains PROSPECTIVE_CATEGORY_COLORS category = true →
      prospectiveStyleText category = "#" ++ style_id "p-cat-" category) ∧
    (dictContains PROSPECTIVE_CATEGORY_COLORS category = false →
      styleUrlSegment (prospectiveStyleText category) = "") ∧
    (dictContains INSTALLED_STATUS_COLORS status = true →
      installedStyleText status = "#" ++ style_id "i-status-" status) ∧
    (dictContains INSTALLED_STATUS_COLORS status = false →
      styleUrlSegment (installedStyleText status) = "") ∧
    (∀ color, dictGet PROSPECTIVE_CATEGORY_COLORS category = some color →
      dictGet PROSPECTIVE_CATEGORY_ICONS category = none →
      build_style_block (style_id "p-cat-" category) color
        PROSPECTIVE_DEFAULT_ICON_URL ∈ style_blocks) ∧
    (∀ color, dictGet INSTALLED_STATUS_COLORS status = some color →
      build_style_block (style_id "i-status-" status) color
        INSTALLED_DEFAULT_ICON_URL ∈ style_blocks) := by
  refine ⟨?_, ?_, ?_, ?_, ?_, ?_⟩
  · intro h; simp [prospectiveStyleText, h]
  · intro h; simp [styleUrlSegment, prospectiveStyleText, h]
  · intro h; simp [installedStyleText, h]
  · intro h; simp [styleUrlSegment, installedStyleText, h]
  · intro color hcolor hicon
    have hmem := dictGet_mem hcolor
    apply List.mem_append_left
    have := List.mem_map_of_mem
      (fun p : String × String => build_style_block (style_id "p-cat-" p.1) p.2
        (dictGetD PROSPECTIVE_CATEGORY_ICONS p.1 PROSPECTIVE_DEFAULT_ICON_URL)) hmem
    simpa [dictGetD, hicon] using this
  · intro color hcolor
    have hmem := dictGet_mem hcolor
    apply List.mem_append_right
    have := List.mem_map_of_mem
      (fun p : String × String => build_style_block (style_id "i-status-" p.1) p.2
        (dictGetD INSTALLED_STATUS_ICONS p.1 INSTALLED_DEFAULT_ICON_URL)) hmem
    simpa [dictGetD, dictGet, INSTALLED_STATUS_ICONS] using this

theorem style_selection_amended_witness :
    prospectiveStyleText "Suggested" = "#" ++ style_id "p-cat-" "Suggested" ∧
    styleUrlSegment (prospectiveStyleText "Misc") = "" ∧
    build_style_block (style_id "i-status-" "In Service") "ff00ff00"
      INSTALLED_DEFAULT_ICON_URL ∈ style_blocks := by
  refine ⟨(style_selection_amended "Suggested" "In Service").1 (by decide),
    (style_selection_amended "Misc" "In Service").2.1 (by decide),
    (style_selection_amended "Suggested" "In Service").2.2.2.2.2 "ff00ff00" (by decide)⟩

theorem missingColumns_eq_nil_iff (required cols : List String) :
    missingColumns required cols = [] ↔ ∀ c ∈ required, c ∈ cols := by
  simp [missingColumns, List.filter_eq_nil_iff, List.contains]

/-- C2: a required column absent from a sheet's header makes the run fail
with an error before any document is produced; with all required columns
present on both sheets, validation passes and the run returns the two
documents built from the processed rows. -/
theorem header_validation_gates_output
    (nowStr : String) (refresh : Nat) (datasetUrl : String)
    (pcols icols : List String) (prows irows : List Row) :
    ((∃ c ∈ PROSPECTIVE_REQUIRED_COLUMNS, c ∉ pcols) ∨
        (∃ c ∈ INSTALLED_REQUIRED_COLUMNS, c ∉ icols) →
      ∃ msg, runMain nowStr refresh datasetUrl pcols prows icols irows =
        Except.error msg) ∧
    ((∀ c ∈ PROSPECTIVE_REQUIRED_COLUMNS, c ∈ pcols) →
     (∀ c ∈ INSTALLED_REQUIRED_COLUMNS, c ∈ icols) →
      runMain nowStr refresh datasetUrl pcols prows icols irows =
        Except.ok
          (sites_kml nowStr (processProspective nowStr refresh pcols prows).2
            (processInstalled nowStr refresh icols irows).2 styles_xml
            (sheetFolderXml "Prospective Nodes"
              (processProspective nowStr refresh pcols prows).1 PROSPECTIVE_CATEGORY_ORDER)
            (sheetFolderXml "Installed Nodes"
              (processInstalled nowStr refresh icols irows).1 NODE_CLASS_ORDER),
           networklink_kml datasetUrl refresh)) := by
  constructor
  · intro h
    by_cases hp : missingColumns PROSPECTIVE_REQUIRED_COLUMNS pcols = []
    · have hi : missingColumns INSTALLED_REQUIRED_COLUMNS icols ≠ [] := by
        rcases h with ⟨c, hc, hmem⟩ | ⟨c, hc, hmem⟩
        · exact absurd ((missingColumns_eq_nil_iff _ _).mp hp c hc) hmem
        · intro hnil
          exact hmem ((missingColumns_eq_nil_iff _ _).mp hnil c hc)
      refine ⟨"Installed sheet missing required columns", ?_⟩
      simp [runMain, hp, hi]
    · refine ⟨"Prospective sheet missing required columns", ?_⟩
      simp [runMain, hp]
  · intro hp hi
    have hp' : missingColumns PROSPECTIVE_REQUIRED_COLUMNS pcols = [] :=
      (missingColumns_eq_nil_iff _ _).mpr hp
    have hi' : missingColumns INSTALLED_REQUIRED_COLUMNS icols = [] :=
      (missingColumns_eq_nil_iff _ _).mpr hi
    simp [runMain, hp', hi']

theorem header_validation_gates_output_witness :
    (∃ msg, runMain "t" 600 "" ["Name"] [] INSTALLED_REQUIRED_COLUMNS [] =
      Except.error msg) ∧
    runMain "t" 600 "" PROSPECTIVE_REQUIRED_COLUMNS [] INSTALLED_REQUIRED_COLUMNS [] =
      Except.ok
        (sites_kml "t" 0 0 styles_xml
          (sheetFolderXml "Prospective Nodes" [] PROSPECTIVE_CATEGORY_ORDER)
          (sheetFolderXml "Installed Nodes" [] NODE_CLASS_ORDER),
         networklink_kml "" 600) := by
  constructor
  · exact (header_validation_gates_output "t" 600 "" ["Name"] INSTALLED_REQUIRED_COLUMNS
      [] []).1 (Or.inl ⟨"Latitude", by decide, by decide⟩)
  · exact (header_validation_gates_output "t" 600 "" PROSPECTIVE_REQUIRED_COLUMNS
      INSTALLED_REQUIRED_COLUMNS [] []).2 (fun c hc => hc) (fun c hc => hc)

/-- C7: after both header validations pass, the run serializes exactly two
documents — the sites document (built from the styles and the two folder
hierarchies) and the network-link document whose Link carries refreshMode
`onInterval` and refreshInterval equal to the configured refresh seconds. -/
theorem two_output_documents
    (nowStr : String) (refresh : Nat) (datasetUrl : String)
    (pcols icols : List String) (prows irows : List Row)
    (hp : missingColumns PROSPECTIVE_REQUIRED_COLUMNS pcols = [])
    (hi : missingColumns INSTALLED_REQUIRED_COLUMNS icols = []) :
    runMain nowStr refresh datasetUrl pcols prows icols irows =
      Except.ok
        (sites_kml nowStr (processProspective nowStr refresh pcols prows).2
          (processInstalled nowStr refresh icols irows).2 styles_xml
          (sheetFolderXml "Prospective Nodes"
            (processProspective nowStr refresh pcols prows).1 PROSPECTIVE_CATEGORY_ORDER)
          (sheetFolderXml "Installed Nodes"
            (processInstalled nowStr refresh icols irows).1 NODE_CLASS_ORDER),
         networklink_kml datasetUrl refresh) ∧
    (∃ pre post : String,
      networklink_kml datasetUrl refresh =
        pre ++ "<refreshMode>onInterval</refreshMode>" ++ "\n      <refreshInterval>"
          ++ toString refresh ++ "</refreshInterval>" ++ post) := by
  constructor
  · simp [runMain, hp, hi]
  · refine
      ⟨"<?xml version=\"1.0\" encoding=\"UTF-8\"?>\n<kml xmlns=\"http://www.opengis.net/kml/2.2\">\n  <NetworkLink>\n    <name>"
          ++ htmlEscape NETWORKLINK_NAME ++ "</name>\n    <Link>\n      <href>"
          ++ htmlEscape (pyOr datasetUrl DEFAULT_DATASET_HREF) ++ "</href>\n      ",
        "\n    </Link>\n  </NetworkLink>\n</kml>\n", ?_⟩
    simp [networklink_kml, String.append_assoc]

theorem two_output_documents_witness :
    runMain "t" 600 "" PROSPECTIVE_REQUIRED_COLUMNS [] INSTALLED_REQUIRED_COLUMNS [] =
      Except.ok
        (sites_kml "t" 0 0 styles_xml
          (sheetFolderXml "Prospective Nodes" [] PROSPECTIVE_CATEGORY_ORDER)
          (sheetFolderXml "Installed Nodes" [] NODE_CLASS_ORDER),
         networklink_kml "" 600) ∧
    (∃ pre post : String,
      networklink_kml "" 600 =
        pre ++ "<refreshMode>onInterval</refreshMode>" ++ "\n      <refreshInterval>"
          ++ toString (600 : Nat) ++ "</refreshInterval>" ++ post) := by
  have h := two_output_documents "t" 600 "" PROSPECTIVE_REQUIRED_COLUMNS
    INSTALLED_REQUIRED_COLUMNS [] [] (by decide) (by decide)
  exact ⟨h.1, h.2⟩

/-- C8: the whole transformation is deterministic — two runs given equal row
sequences from both sheets and equal configuration (timestamp, refresh
interval, dataset URL, headers) produce identical documents. -/
theorem pipeline_deterministic
    (n₁ n₂ d₁ d₂ : String) (r₁ r₂ : Nat)
    (pc₁ pc₂ ic₁ ic₂ : List String) (pr₁ pr₂ ir₁ ir₂ : List Row)
    (hn : n₁ = n₂) (hr : r₁ = r₂) (hd : d₁ = d₂)
    (hpc : pc₁ = pc₂) (hpr : pr₁ = pr₂) (hic : ic₁ = ic₂) (hir : ir₁ = ir₂) :
    runMain n₁ r₁ d₁ pc₁ pr₁ ic₁ ir₁ = runMain n₂ r₂ d₂ pc₂ pr₂ ic₂ ir₂ := by
  subst hn hr hd hpc hpr hic hir
  rfl

theorem pipeline_deterministic_witness :
    runMain "t" 600 "" exampleCols [exampleRowA]
        INSTALLED_REQUIRED_COLUMNS [exampleInstalledRow] =
      runMain "t" 600 "" exampleCols [exampleRowA]
        INSTALLED_REQUIRED_COLUMNS [exampleInstalledRow] :=
  pipeline_deterministic "t" "t" "" "" 600 600 exampleCols exampleCols
    INSTALLED_REQUIRED_COLUMNS INSTALLED_REQUIRED_COLUMNS [exampleRowA] [exampleRowA]
    [exampleInstalledRow] [exampleInstalledRow] rfl rfl rfl rfl rfl rfl rfl

/-- C10: a non-empty styleUrl is attached to a marker only when its
classification value is a key of the corresponding color table; the styleUrl
then references the id `p-cat-…` resp. `i-status-…`, and a Style block with
exactly that id is generated into the document's style list (with the icon
fallback), so every emitted styleUrl references a defined Style. -/
theorem styleurl_refs_defined_style (category status : String) :
    (prospectiveStyleText category ≠ "" →
      ∃ color, dictGet PROSPECTIVE_CATEGORY_COLORS category = some color ∧
        prospectiveStyleText category = "#" ++ style_id "p-cat-" category ∧
        build_style_block (style_id "p-cat-" category) color
          (dictGetD PROSPECTIVE_CATEGORY_ICONS category PROSPECTIVE_DEFAULT_ICON_URL)
          ∈ style_blocks) ∧
    (installedStyleText status ≠ "" →
      ∃ color, dictGet INSTALLED_STATUS_COLORS status = some color ∧
        installedStyleText status = "#" ++ style_id "i-status-" status ∧
        build_style_block (style_id "i-status-" status) color
          (dictGetD INSTALLED_STATUS_ICONS status INSTALLED_DEFAULT_ICON_URL)
          ∈ style_blocks) := by
  constructor
  · intro h
    cases hcolor : dictGet PROSPECTIVE_CATEGORY_COLORS category with
    | none => simp [prospectiveStyleText, dictContains, hcolor] at h
    | some color =>
      refine ⟨color, rfl, ?_, ?_⟩
      · simp [prospectiveStyleText, dictContains, hcolor]
      · have hmem := List.mem_map_of_mem
          (fun p : String × String => build_style_block (style_id "p-cat-" p.1) p.2
            (dictGetD PROSPECTIVE_CATEGORY_ICONS p.1 PROSPECTIVE_DEFAULT_ICON_URL))
          (dictGet_mem hcolor)
        have hmem2 := List.mem_append_left
          (INSTALLED_STATUS_COLORS.map
            (fun p => build_style_block (style_id "i-status-" p.1) p.2
              (dictGetD INSTALLED_STATUS_ICONS p.1 INSTALLED_DEFAULT_ICON_URL))) hmem
        exact hmem2
  · intro h
    cases hcolor : dictGet INSTALLED_STATUS_COLORS status with
    | none => simp [installedStyleText, dictContains, hcolor] at h
    | some color =>
      refine ⟨color, rfl, ?_, ?_⟩
      · simp [installedStyleText, dictContains, hcolor]
      · have hmem := List.mem_map_of_mem
          (fun p : String × String => build_style_block (style_id "i-status-" p.1) p.2
            (dictGetD INSTALLED_STATUS_ICONS p.1 INSTALLED_DEFAULT_ICON_URL))
          (dictGet_mem hcolor)
        have hmem2 := List.mem_append_right
          (PROSPECTIVE_CATEGORY_COLORS.map
            (fun p => build_style_block (style_id "p-cat-" p.1) p.2
              (dictGetD PROSPECTIVE_CATEGORY_ICONS p.1 PROSPECTIVE_DEFAULT_ICON_URL))) hmem
        exact hmem2

theorem styleurl_refs_defined_style_witness :
    (∃ color, dictGet PROSPECTIVE_CATEGORY_COLORS "Suggested" = some color ∧
      prospectiveStyleText "Suggested" = "#" ++ style_id "p-cat-" "Suggested" ∧
      build_style_block (style_id "p-cat-" "Suggested") color
        (dictGetD PROSPECTIVE_CATEGORY_ICONS "Suggested" PROSPECTIVE_DEFAULT_ICON_URL)
        ∈ style_blocks) ∧
    (∃ color, dictGet INSTALLED_STATUS_COLORS "In Service" = some color ∧
      installedStyleText "In Service" = "#" ++ style_id "i-status-" "In Service" ∧
      build_style_block (style_id "i-status-" "In Service") color
        (dictGetD INSTALLED_STATUS_ICONS "In Service" INSTALLED_DEFAULT_ICON_URL)
        ∈ style_blocks) :=
  ⟨(styleurl_refs_defined_style "Suggested" "In Service").1 (by decide),
   (styleurl_refs_defined_style "Suggested" "In Service").2 (by decide)⟩

set_option maxRecDepth 200000 in
set_option maxHeartbeats 2000000 in
theorem emitted_marker_invariants_witness :
    ∃ e : String × String,
      e ∈ dictGetD (processProspective "t" 600 exampleCols [exampleRowA]).1 "x" [] ∧
      ∃ row ∈ [exampleRowA], ∃ la lo : Rat,
        safe_float (rowGet row "Latitude") = some la ∧
        safe_float (rowGet row "Longitude") = some lo ∧
        -90 ≤ la ∧ la ≤ 90 ∧ -180 ≤ lo ∧ lo ≤ 180 ∧
        getStr row "Name" ≠ "" ∧ getStr row "Category" ≠ "" ∧
        "x" = getStr row "Category" ∧
        e.2 = placemarkXml (getStr row "Name") (prospectiveStyleText "x")
          (prospectiveDesc "t" 600 exampleCols row (getStr row "Name") "x") la lo := by
  have hm : (pyLower "A",
      placemarkXml "A" (prospectiveStyleText "x")
        (prospectiveDesc "t" 600 exampleCols exampleRowA "A" "x") 1 2) ∈
      dictGetD (processProspective "t" 600 exampleCols [exampleRowA]).1 "x" [] := by
    decide
  exact ⟨_, hm,
    (emitted_marker_invariants "t" 600 exampleCols exampleCols [exampleRowA] [] "x" _).1 hm⟩

theorem malformed_row_skipped_and_counted_witness :
    List.foldl (prospectiveStep "t" 600 exampleCols) (([], 0) : Folders × Nat)
        [exampleBadRow] =
      List.foldl (prospectiveStep "t" 600 exampleCols) (([], 1) : Folders × Nat) [] :=
  (malformed_row_skipped_and_counted "t" 600 exampleCols ([], 0) exampleBadRow []).1
    (by decide)

set_option maxRecDepth 200000 in
set_option maxHeartbeats 2000000 in
theorem marker_single_group_witness :
    "x" = getStr exampleRowA "Category" ∧
    ∀ k', dictGetD (prospectiveStep "t" 600 exampleCols (([], 0) : Folders × Nat)
        exampleRowA).1 k' [] =
      if k' = "x" then
        dictGetD (([], 0) : Folders × Nat).1 k' [] ++
          [("a", placemarkXml "A" (prospectiveStyleText "x")
            (prospectiveDesc "t" 600 exampleCols exampleRowA "A" "x") 1 2)]
      else dictGetD (([], 0) : Folders × Nat).1 k' [] :=
  (marker_single_group "t" 600 exampleCols ([], 0) exampleRowA "x"
    ("a", placemarkXml "A" (prospectiveStyleText "x")
      (prospectiveDesc "t" 600 exampleCols exampleRowA "A" "x") 1 2)).1 (by decide)

end GenerateKml
